import Mathlib

/-!
Verification of the JamesAvisa notification backend
(`notification-api-main/src/services/whatsappService.js`, the Express
resident-registration routes, and `services/notificationService.ts`).

Phone numbers are modelled as lists of characters; `String.replace(/\D/g,'')`
becomes `List.filter Char.isDigit`, `substring(i, j)` becomes
`(l.drop i).take (j - i)` (both clamp out-of-range indices), and a thrown
error becomes `Except.error`.
-/

namespace PorteiroApp

/-- The fixed allow-list of valid Brazilian DDDs (`VALID_DDDS` in
`whatsappService.js`), as two-character lists. -/
def VALID_DDDS : List (List Char) :=
  [['1','1'], ['1','2'], ['1','3'], ['1','4'], ['1','5'], ['1','6'], ['1','7'], ['1','8'], ['1','9'],
   ['2','1'], ['2','2'], ['2','4'],
   ['2','7'], ['2','8'],
   ['3','1'], ['3','2'], ['3','3'], ['3','4'], ['3','5'], ['3','7'], ['3','8'],
   ['4','1'], ['4','2'], ['4','3'], ['4','4'], ['4','5'], ['4','6'],
   ['4','7'], ['4','8'], ['4','9'],
   ['5','1'], ['5','3'], ['5','4'], ['5','5'],
   ['6','1'],
   ['6','2'], ['6','4'],
   ['6','3'],
   ['6','5'], ['6','6'],
   ['6','7'],
   ['6','8'],
   ['6','9'],
   ['7','1'], ['7','3'], ['7','4'], ['7','5'], ['7','7'],
   ['7','9'],
   ['8','1'], ['8','7'],
   ['8','2'],
   ['8','3'],
   ['8','4'],
   ['8','5'], ['8','8'],
   ['8','6'], ['8','9'],
   ['9','1'], ['9','3'], ['9','4'],
   ['9','2'], ['9','7'],
   ['9','5'],
   ['9','6'],
   ['9','8'], ['9','9']]

/-- The distinct errors thrown by the formatting part of `sendWhatsApp`
(lines 137-215 of `whatsappService.js`). -/
inductive FormatError where
  | invalidDDD (ddd : List Char)
  | invalidMobileNinthDigit
  | invalidCountryCodeMobile
  | unsupportedFormat
  | invalidAfterFormatting
  | invalidDDDAfterFormatting (ddd : List Char)
deriving DecidableEq

/-- `to.replace(/[^\d]/g, '')` (line 137). -/
def cleanDigits (toNumber : List Char) : List Char :=
  toNumber.filter Char.isDigit

/-- The per-branch formatting logic of `sendWhatsApp` (lines 142-202):
given `cleanNumber`, produce `formattedNumber` or throw.  The source tests
`!VALID_DDDS.includes(ddd)` and throws; here the membership test is kept
positive with the throw in the `else` branch. -/
def formatStage (cleanNumber : List Char) : Except FormatError (List Char) :=
  if cleanNumber.length = 11 then
    if cleanNumber.take 2 ∈ VALID_DDDS then
      if (cleanNumber.drop 2).take 1 = ['9'] then
        Except.ok (['5','5'] ++ cleanNumber)
      else
        Except.error FormatError.invalidMobileNinthDigit
    else
      Except.error (FormatError.invalidDDD (cleanNumber.take 2))
  else if cleanNumber.length = 10 then
    if cleanNumber.take 2 ∈ VALID_DDDS then
      Except.ok (['5','5'] ++ cleanNumber)
    else
      Except.error (FormatError.invalidDDD (cleanNumber.take 2))
  else if cleanNumber.length = 13 ∧ cleanNumber.take 2 = ['5','5'] then
    if (cleanNumber.drop 2).take 2 ∈ VALID_DDDS then
      if cleanNumber.length = 13 then
        if (cleanNumber.drop 4).take 1 ≠ ['9'] then
          if cleanNumber.length ≠ 12 then
            Except.error FormatError.invalidCountryCodeMobile
          else
            Except.ok cleanNumber
        else
          Except.ok cleanNumber
      else
        Except.ok cleanNumber
    else
      Except.error (FormatError.invalidDDD ((cleanNumber.drop 2).take 2))
  else if cleanNumber.length = 12 ∧ cleanNumber.take 2 = ['5','5'] then
    if (cleanNumber.drop 2).take 2 ∈ VALID_DDDS then
      Except.ok cleanNumber
    else
      Except.error (FormatError.invalidDDD ((cleanNumber.drop 2).take 2))
  else
    Except.error FormatError.unsupportedFormat

/-- The final re-validation of `formattedNumber` (lines 206-215): length must
be 12 or 13, the number must start with `55`, and the embedded DDD must be in
the allow-list. -/
def finalCheck (formattedNumber : List Char) : Except FormatError (List Char) :=
  if (formattedNumber.length ≠ 12 ∧ formattedNumber.length ≠ 13) ∨
      formattedNumber.take 2 ≠ ['5','5'] then
    Except.error FormatError.invalidAfterFormatting
  else
    if (formattedNumber.drop 2).take 2 ∈ VALID_DDDS then
      Except.ok formattedNumber
    else
      Except.error (FormatError.invalidDDDAfterFormatting ((formattedNumber.drop 2).take 2))

/-- The whole formatting stage of `sendWhatsApp` (lines 137-215): clean the
input, run the per-branch formatting, then the final re-validation. -/
def formatNumber (toNumber : List Char) : Except FormatError (List Char) :=
  (formatStage (cleanDigits toNumber)).bind finalCheck

/-- The "embedded DDD" of a cleaned number, in the sense of the spec: the two
digits after a leading `55` country code for cleaned lengths 12 and 13,
otherwise the first two digits. -/
def embeddedDDD (c : List Char) : List Char :=
  if (c.length = 12 ∨ c.length = 13) ∧ c.take 2 = ['5','5'] then
    (c.drop 2).take 2
  else
    c.take 2

/-- `parseInt` on a string of decimal digits, as used on the two-character
DDD prefix in `validateBrazilianPhone` (line 66). -/
def parseDddNat (l : List Char) : Nat :=
  l.foldl (fun acc ch => acc * 10 + (ch.toNat - 48)) 0

/-- `validateBrazilianPhone` (lines 54-76 of `whatsappService.js`): strip
non-digits, require length 10 or 11, require the numeric DDD to lie in
`[11, 99]`, and for length 11 require the third digit to be `9`. -/
def validateBrazilianPhone (phone : List Char) : Bool :=
  if (phone.filter Char.isDigit).length < 10 ∨ 11 < (phone.filter Char.isDigit).length then
    false
  else if parseDddNat ((phone.filter Char.isDigit).take 2) < 11 ∨
      99 < parseDddNat ((phone.filter Char.isDigit).take 2) then
    false
  else if (phone.filter Char.isDigit).length = 11 ∧
      ((phone.filter Char.isDigit).drop 2).take 1 ≠ ['9'] then
    false
  else
    true

/-- The two JSON payload schemas `sendWhatsApp` POSTs to the gateway's
`message/sendText` endpoint: the primary schema carries the body in a nested
`textMessage` object (lines 236-241), the alternate carries it in a top-level
`text` field (lines 264-267). -/
inductive SendPayload where
  | textMessage (number : List Char) (text : String)
  | plainText (number : List Char) (text : String)
deriving DecidableEq

/-- The fields of a gateway response that `sendWhatsApp` inspects. -/
structure EvolutionResponse where
  keyId : Option String
  messageStatus : Option String
deriving DecidableEq

/-- The try/catch send block of `sendWhatsApp` (lines 245-282): POST the
primary `textMessage` payload; on any failure POST exactly once more with the
alternate payload, whose outcome (success or failure) is final.  `post` is the
gateway's outcome for each POST; the first component of the result is the
sequence of payloads POSTed. -/
def sendTextAttempts (number : List Char) (message : String)
    (post : SendPayload → Except String EvolutionResponse) :
    List SendPayload × Except String EvolutionResponse :=
  match post (SendPayload.textMessage number message) with
  | Except.ok r => ([SendPayload.textMessage number message], Except.ok r)
  | Except.error _ =>
    match post (SendPayload.plainText number message) with
    | Except.ok r =>
        ([SendPayload.textMessage number message, SendPayload.plainText number message],
          Except.ok r)
    | Except.error e =>
        ([SendPayload.textMessage number message, SendPayload.plainText number message],
          Except.error e)

/-- Outcomes of the external calls made by `POST /register-resident`
(`src/unnamed/part_000`, lines 117-306), in the order the route makes them.
The temporary-password insert, the building lookup and the WhatsApp send are
performed but their failures are only logged, so their outcomes never affect
the route's control flow. -/
structure RegisterEnv where
  existingProfile : Option String
  passwordGen : Except String String
  authCreate : Except String String
  profileInsert : Except String String
  tempPasswordInsert : Except String Unit
  buildingName : Option String
  whatsAppSend : Except String Unit

/-- HTTP response of the route: status code, `success` flag, error message. -/
structure RouteResponse where
  status : Nat
  success : Bool
  error : Option String
deriving DecidableEq

/-- The external side effects `POST /register-resident` can perform. -/
inductive DbEffect where
  | selectProfileByEmail
  | rpcGeneratePassword
  | authCreateUser
  | insertProfile (userId : String)
  | authDeleteUser (userId : String)
  | insertTempPassword (profileId : String)
  | selectBuilding
  | sendWhatsAppMessage
deriving DecidableEq

/-- Effects that create, modify or delete state (auth users or table rows). -/
def DbEffect.isWrite : DbEffect → Bool
  | DbEffect.authCreateUser => true
  | DbEffect.insertProfile _ => true
  | DbEffect.authDeleteUser _ => true
  | DbEffect.insertTempPassword _ => true
  | _ => false

/-- The `POST /register-resident` handler after successful body validation
(`src/unnamed/part_000`, lines 117-306): check the email against `profiles`,
generate a password, create the auth user, insert the profile (deleting the
auth user again if the insert fails), store the temporary password, look up
the building and send the WhatsApp message.  Returns the HTTP response and
the sequence of external effects performed. -/
def registerResident (env : RegisterEnv) : RouteResponse × List DbEffect :=
  match env.existingProfile with
  | some _ =>
      (RouteResponse.mk 400 false (some "Email já cadastrado no sistema"),
        [DbEffect.selectProfileByEmail])
  | none =>
      match env.passwordGen with
      | Except.error _ =>
          (RouteResponse.mk 500 false (some "Erro interno do servidor"),
            [DbEffect.selectProfileByEmail, DbEffect.rpcGeneratePassword])
      | Except.ok _ =>
          match env.authCreate with
          | Except.error msg =>
              (RouteResponse.mk 400 false (some msg),
                [DbEffect.selectProfileByEmail, DbEffect.rpcGeneratePassword,
                  DbEffect.authCreateUser])
          | Except.ok userId =>
              match env.profileInsert with
              | Except.error _ =>
                  (RouteResponse.mk 500 false (some "Erro ao criar perfil do usuário"),
                    [DbEffect.selectProfileByEmail, DbEffect.rpcGeneratePassword,
                      DbEffect.authCreateUser, DbEffect.insertProfile userId,
                      DbEffect.authDeleteUser userId])
              | Except.ok profileId =>
                  (RouteResponse.mk 200 true none,
                    [DbEffect.selectProfileByEmail, DbEffect.rpcGeneratePassword,
                      DbEffect.authCreateUser, DbEffect.insertProfile userId,
                      DbEffect.insertTempPassword profileId, DbEffect.selectBuilding,
                      DbEffect.sendWhatsAppMessage])

/-- A request environment whose email is already registered. -/
def envDuplicateEmail : RegisterEnv :=
  RegisterEnv.mk (some "profile-1") (Except.ok "Pass123") (Except.ok "user-1")
    (Except.ok "profile-2") (Except.ok ()) none (Except.ok ())

/-- A request environment where the profiles insert fails after auth-user
creation succeeded. -/
def envProfileInsertFails : RegisterEnv :=
  RegisterEnv.mk none (Except.ok "Pass123") (Except.ok "user-1")
    (Except.error "insert failed") (Except.ok ()) none (Except.ok ())

/-- A `visitor_logs` row as carried by a realtime UPDATE payload
(`services/notificationService.ts`). -/
structure VisitorLogRow where
  id : String
  visitor_id : String
  apartment_id : String
  building_id : String
  notification_status : Option String
  log_time : String
  tipo_log : String
  purpose : Option String
deriving DecidableEq

/-- The joined columns of the enrichment re-query (visitor name and
apartment number, lines 287-295). -/
structure EnrichedJoin where
  visitorName : Option String
  apartmentNumber : Option String
deriving DecidableEq

/-- The `NotificationData` interface of `notificationService.ts`. -/
structure NotificationData where
  visitor_log_id : String
  visitor_id : String
  apartment_id : String
  building_id : String
  old_status : Option String
  new_status : Option String
  log_time : String
  tipo_log : String
  purpose : Option String
  changed_at : String
  visitor_name : Option String
  apartment_number : Option String
deriving DecidableEq

/-- What one call of `handleNotificationChange` did: whether the enrichment
re-query was issued, and which callbacks were invoked with which data. -/
structure HandleOutcome where
  queried : Bool
  invocations : List (Nat × NotificationData)
deriving DecidableEq

/-- JS `x || null` on a possibly-missing string: an empty string is falsy and
collapses to null (used on `oldRecord?.notification_status`, line 307). -/
def jsOrNull (o : Option String) : Option String :=
  match o with
  | some s => if s = "" then none else some s
  | none => none

/-- `NotificationService.handleNotificationChange` (lines 277-329): return
early when the old and new `notification_status` coincide, otherwise run the
enrichment query (on error: no invocations) and invoke each registered
callback once with the enriched `NotificationData`.  The payload's `old`
record may be absent, hence `Option`; `Option` collapses the JS `null` and
`undefined`, which this code could only distinguish when the new
`notification_status` is null — a case excluded by the channel's
`notification_status=neq.null` filter.  Callbacks are identified by index;
`now` is `new Date().toISOString()`. -/
def handleNotificationChange (oldRec : Option VisitorLogRow) (newRec : VisitorLogRow)
    (queryResult : Except String EnrichedJoin) (callbacks : List Nat) (now : String) :
    HandleOutcome :=
  if Option.bind oldRec VisitorLogRow.notification_status = newRec.notification_status then
    HandleOutcome.mk false []
  else
    match queryResult with
    | Except.error _ => HandleOutcome.mk true []
    | Except.ok enriched =>
        HandleOutcome.mk true
          (callbacks.map (fun cb =>
            (cb, NotificationData.mk newRec.id newRec.visitor_id newRec.apartment_id
              newRec.building_id
              (jsOrNull (Option.bind oldRec VisitorLogRow.notification_status))
              newRec.notification_status newRec.log_time newRec.tipo_log newRec.purpose
              now enriched.visitorName enriched.apartmentNumber)))

/-- The row before the update: notification_status `"pending"`. -/
def sampleOldRow : VisitorLogRow :=
  VisitorLogRow.mk "log-1" "visitor-1" "apt-1" "building-1" (some "pending")
    "2025-01-01T10:00:00Z" "visita" none

/-- The row after an update that changed only `purpose`, leaving the non-null
notification_status `"pending"` untouched. -/
def sampleNewRowSameStatus : VisitorLogRow :=
  VisitorLogRow.mk "log-1" "visitor-1" "apt-1" "building-1" (some "pending")
    "2025-01-01T10:00:00Z" "visita" (some "entrega")

/-- The row after an update of notification_status to `"approved"`. -/
def sampleNewRowApproved : VisitorLogRow :=
  VisitorLogRow.mk "log-1" "visitor-1" "apt-1" "building-1" (some "approved")
    "2025-01-01T10:00:00Z" "visita" none

/-- C1: for every input to `sendWhatsApp` whose cleaned form has exactly 11
digits and whose first two digits are in the Brazilian DDD allow-list, the
formatting stage returns `"55"` followed by the cleaned input when the third
digit is `'9'`, and throws an error when the third digit is not `'9'`. -/
theorem sendWhatsApp_format_11_digit (phone : List Char)
    (h11 : (cleanDigits phone).length = 11)
    (hddd : (cleanDigits phone).take 2 ∈ VALID_DDDS) :
    (((cleanDigits phone).drop 2).take 1 = ['9'] →
      formatStage (cleanDigits phone) = Except.ok (['5','5'] ++ cleanDigits phone)) ∧
    (((cleanDigits phone).drop 2).take 1 ≠ ['9'] →
      formatStage (cleanDigits phone) = Except.error FormatError.invalidMobileNinthDigit) := by
  constructor
  · intro h9
    unfold formatStage
    rw [if_pos h11, if_pos hddd, if_pos h9]
  · intro h9
    unfold formatStage
    rw [if_pos h11, if_pos hddd, if_neg h9]

/-- Witness for C1 at the spec's example input `"11987654321"`. -/
theorem sendWhatsApp_format_11_digit_check :
    (cleanDigits (String.data "11987654321")).length = 11 ∧
    formatStage (cleanDigits (String.data "11987654321")) =
      Except.ok (['5','5'] ++ cleanDigits (String.data "11987654321")) :=
  ⟨by decide,
    (sendWhatsApp_format_11_digit (String.data "11987654321") (by decide) (by decide)).1
      (by decide)⟩

/-- C2: for every input to `sendWhatsApp` whose cleaned form has exactly 10
digits and whose first two digits are in the Brazilian DDD allow-list, the
formatting stage returns `"55"` concatenated with the cleaned input, with the
digit content unchanged. -/
theorem sendWhatsApp_format_10_digit (phone : List Char)
    (h10 : (cleanDigits phone).length = 10)
    (hddd : (cleanDigits phone).take 2 ∈ VALID_DDDS) :
    formatStage (cleanDigits phone) = Except.ok (['5','5'] ++ cleanDigits phone) := by
  unfold formatStage
  rw [if_neg (show ¬(cleanDigits phone).length = 11 by omega), if_pos h10, if_pos hddd]

/-- Witness for C2 at the spec's example input `"1133334444"`. -/
theorem sendWhatsApp_format_10_digit_check :
    (cleanDigits (String.data "1133334444")).length = 10 ∧
    formatStage (cleanDigits (String.data "1133334444")) =
      Except.ok (['5','5'] ++ cleanDigits (String.data "1133334444")) :=
  ⟨by decide, sendWhatsApp_format_10_digit (String.data "1133334444") (by decide) (by decide)⟩

/-- C3: for every input to `sendWhatsApp` whose embedded DDD (the two digits
after a leading `55` for cleaned lengths 12 and 13, otherwise the first two
digits) is outside the allow-list, the formatting stage throws an error,
regardless of the cleaned input's length. -/
theorem sendWhatsApp_format_invalid_ddd (phone : List Char)
    (h : embeddedDDD (cleanDigits phone) ∉ VALID_DDDS) :
    ∃ e, formatStage (cleanDigits phone) = Except.error e := by
  set c := cleanDigits phone with hc
  unfold formatStage
  by_cases h11 : c.length = 11
  · have hdd : c.take 2 ∉ VALID_DDDS := by
      have he : embeddedDDD c = c.take 2 := by
        unfold embeddedDDD
        rw [if_neg]
        rintro ⟨h1, _⟩
        omega
      rwa [he] at h
    rw [if_pos h11, if_neg hdd]
    exact ⟨_, rfl⟩
  · by_cases h10 : c.length = 10
    · have hdd : c.take 2 ∉ VALID_DDDS := by
        have he : embeddedDDD c = c.take 2 := by
          unfold embeddedDDD
          rw [if_neg]
          rintro ⟨h1, _⟩
          omega
        rwa [he] at h
      rw [if_neg h11, if_pos h10, if_neg hdd]
      exact ⟨_, rfl⟩
    · by_cases h13 : c.length = 13 ∧ c.take 2 = ['5','5']
      · have hdd : (c.drop 2).take 2 ∉ VALID_DDDS := by
          have he : embeddedDDD c = (c.drop 2).take 2 := by
            unfold embeddedDDD
            rw [if_pos ⟨Or.inr h13.1, h13.2⟩]
          rwa [he] at h
        rw [if_neg h11, if_neg h10, if_pos h13, if_neg hdd]
        exact ⟨_, rfl⟩
      · by_cases h12 : c.length = 12 ∧ c.take 2 = ['5','5']
        · have hdd : (c.drop 2).take 2 ∉ VALID_DDDS := by
            have he : embeddedDDD c = (c.drop 2).take 2 := by
              unfold embeddedDDD
              rw [if_pos ⟨Or.inl h12.1, h12.2⟩]
            rwa [he] at h
          rw [if_neg h11, if_neg h10, if_neg h13, if_pos h12, if_neg hdd]
          exact ⟨_, rfl⟩
        · rw [if_neg h11, if_neg h10, if_neg h13, if_neg h12]
          exact ⟨_, rfl⟩

/-- Witness for C3 at the input `"00987654321"` (DDD `"00"`). -/
theorem sendWhatsApp_format_invalid_ddd_check :
    embeddedDDD (cleanDigits (String.data "00987654321")) ∉ VALID_DDDS ∧
    ∃ e, formatStage (cleanDigits (String.data "00987654321")) = Except.error e :=
  ⟨by decide, sendWhatsApp_format_invalid_ddd (String.data "00987654321") (by decide)⟩

/-- Exhaustive description of the successful branches of `formatStage`. -/
theorem formatStage_ok_cases (c f : List Char) (h : formatStage c = Except.ok f) :
    (c.length = 11 ∧ c.take 2 ∈ VALID_DDDS ∧ (c.drop 2).take 1 = ['9'] ∧ f = ['5','5'] ++ c) ∨
    (c.length = 10 ∧ c.take 2 ∈ VALID_DDDS ∧ f = ['5','5'] ++ c) ∨
    (c.length = 13 ∧ c.take 2 = ['5','5'] ∧ (c.drop 2).take 2 ∈ VALID_DDDS ∧
      (c.drop 4).take 1 = ['9'] ∧ f = c) ∨
    (c.length = 12 ∧ c.take 2 = ['5','5'] ∧ (c.drop 2).take 2 ∈ VALID_DDDS ∧ f = c) := by
  unfold formatStage at h
  split at h
  next h11 =>
    split at h
    next hddd =>
      split at h
      next h9 =>
        injection h with h2
        exact Or.inl ⟨h11, hddd, h9, h2.symm⟩
      next h9 => exact Except.noConfusion h
    next hddd => exact Except.noConfusion h
  next h11 =>
    split at h
    next h10 =>
      split at h
      next hddd =>
        injection h with h2
        exact Or.inr (Or.inl ⟨h10, hddd, h2.symm⟩)
      next hddd => exact Except.noConfusion h
    next h10 =>
      split at h
      next h13 =>
        obtain ⟨hl13, hs13⟩ := h13
        split at h
        next hddd =>
          split at h
          next h9ne =>
            split at h
            next hne12 => exact Except.noConfusion h
            next hne12 =>
              rw [not_not] at hne12
              exact absurd hl13 (by omega)
          next h9ne =>
            have h9 : (c.drop 4).take 1 = ['9'] := not_not.mp h9ne
            injection h with h2
            exact Or.inr (Or.inr (Or.inl ⟨hl13, hs13, hddd, h9, h2.symm⟩))
        next hddd => exact Except.noConfusion h
      next h13 =>
        split at h
        next h12 =>
          obtain ⟨hl12, hs12⟩ := h12
          split at h
          next hddd =>
            injection h with h2
            exact Or.inr (Or.inr (Or.inr ⟨hl12, hs12, hddd, h2.symm⟩))
          next hddd => exact Except.noConfusion h
        next h12 => exact Except.noConfusion h

/-- `formatStage` only ever outputs digit characters when fed digits. -/
theorem formatStage_ok_digits (c f : List Char) (hdig : ∀ ch ∈ c, ch.isDigit = true)
    (h : formatStage c = Except.ok f) : ∀ ch ∈ f, ch.isDigit = true := by
  rcases formatStage_ok_cases c f h with ⟨_, _, _, rfl⟩ | ⟨_, _, rfl⟩ |
    ⟨_, _, _, _, rfl⟩ | ⟨_, _, _, rfl⟩
  · intro ch hch
    rcases List.mem_append.mp hch with h5 | hc
    · have h5' : ch = '5' := by simpa using h5
      subst h5'
      decide
    · exact hdig ch hc
  · intro ch hch
    rcases List.mem_append.mp hch with h5 | hc
    · have h5' : ch = '5' := by simpa using h5
      subst h5'
      decide
    · exact hdig ch hc
  · exact hdig
  · exact hdig

/-- Every successful output of `formatStage` starts with `55`, has its embedded
DDD in the allow-list, and has length 12, or length 13 with fifth digit `9`. -/
theorem formatStage_ok_shape (c f : List Char) (h : formatStage c = Except.ok f) :
    f.take 2 = ['5','5'] ∧ (f.drop 2).take 2 ∈ VALID_DDDS ∧
    (f.length = 12 ∨ (f.length = 13 ∧ (f.drop 4).take 1 = ['9'])) := by
  rcases formatStage_ok_cases c f h with ⟨h11, hddd, h9, rfl⟩ | ⟨h10, hddd, rfl⟩ |
    ⟨h13, h55, hddd, h9, rfl⟩ | ⟨h12, h55, hddd, rfl⟩
  · refine ⟨rfl, hddd, Or.inr ⟨?_, h9⟩⟩
    simp [h11]
  · refine ⟨rfl, hddd, Or.inl ?_⟩
    simp [h10]
  · exact ⟨h55, hddd, Or.inr ⟨h13, h9⟩⟩
  · exact ⟨h55, hddd, Or.inl h12⟩

/-- `finalCheck` returns its input unchanged when it succeeds. -/
theorem finalCheck_ok_eq (x y : List Char) (h : finalCheck x = Except.ok y) : y = x := by
  unfold finalCheck at h
  split at h
  · exact Except.noConfusion h
  · split at h
    · injection h with h2
      exact h2.symm
    · exact Except.noConfusion h

/-- `finalCheck` accepts any number of the shape `formatStage` produces. -/
theorem finalCheck_of_shape (f : List Char)
    (hlen : f.length = 12 ∨ f.length = 13)
    (h55 : f.take 2 = ['5','5'])
    (hddd : (f.drop 2).take 2 ∈ VALID_DDDS) :
    finalCheck f = Except.ok f := by
  have hcond : ¬((f.length ≠ 12 ∧ f.length ≠ 13) ∨ f.take 2 ≠ ['5','5']) := by
    rintro (⟨h1, h2⟩ | h3)
    · rcases hlen with hl | hl
      · exact h1 hl
      · exact h2 hl
    · exact h3 h55
  unfold finalCheck
  rw [if_neg hcond, if_pos hddd]

/-- Numbers of the shape `formatStage` produces are fixed points of
`formatStage`. -/
theorem formatStage_fixed (f : List Char)
    (hlen : f.length = 12 ∨ (f.length = 13 ∧ (f.drop 4).take 1 = ['9']))
    (h55 : f.take 2 = ['5','5'])
    (hddd : (f.drop 2).take 2 ∈ VALID_DDDS) :
    formatStage f = Except.ok f := by
  unfold formatStage
  rcases hlen with h12 | ⟨h13, h9⟩
  · rw [if_neg (show ¬f.length = 11 by omega), if_neg (show ¬f.length = 10 by omega),
      if_neg (show ¬(f.length = 13 ∧ f.take 2 = ['5','5']) by rintro ⟨hl, _⟩; omega),
      if_pos ⟨h12, h55⟩, if_pos hddd]
  · rw [if_neg (show ¬f.length = 11 by omega), if_neg (show ¬f.length = 10 by omega),
      if_pos ⟨h13, h55⟩, if_pos hddd, if_pos h13, if_neg (not_not_intro h9)]

/-- C4: the formatting stage of `sendWhatsApp` is idempotent: feeding an
accepted output back through the same formatting stage succeeds and yields
exactly the same string. -/
theorem sendWhatsApp_format_idempotent (phone formatted : List Char)
    (h : formatNumber phone = Except.ok formatted) :
    formatNumber formatted = Except.ok formatted := by
  unfold formatNumber at h ⊢
  cases hfs : formatStage (cleanDigits phone) with
  | error e =>
    rw [hfs] at h
    exact Except.noConfusion h
  | ok f' =>
    rw [hfs] at h
    have hfc : finalCheck f' = Except.ok formatted := h
    have heq : formatted = f' := finalCheck_ok_eq _ _ hfc
    subst heq
    have hdig : ∀ ch ∈ formatted, ch.isDigit = true := by
      apply formatStage_ok_digits (cleanDigits phone) formatted ?_ hfs
      intro ch hch
      exact List.of_mem_filter (by simpa [cleanDigits] using hch)
    have hclean : cleanDigits formatted = formatted := by
      unfold cleanDigits
      exact List.filter_eq_self.mpr hdig
    obtain ⟨h55, hddd, hlen⟩ := formatStage_ok_shape _ _ hfs
    have hlen2 : formatted.length = 12 ∨ formatted.length = 13 := by
      rcases hlen with h1 | ⟨h1, _⟩
      · exact Or.inl h1
      · exact Or.inr h1
    rw [hclean, formatStage_fixed formatted hlen h55 hddd]
    exact finalCheck_of_shape formatted hlen2 h55 hddd

/-- Witness for C4: formatting `"11987654321"` yields `"5511987654321"`,
and re-formatting that output yields the same string. -/
theorem sendWhatsApp_format_idempotent_check :
    formatNumber (String.data "5511987654321") = Except.ok (String.data "5511987654321") :=
  sendWhatsApp_format_idempotent (String.data "11987654321") (String.data "5511987654321") rfl

/-- C5: every number produced by the per-branch formatting checks already has
length 12 or 13, starts with `55`, and has its embedded DDD in the allow-list,
so the final-stage re-validation is redundant and its error branches are
unreachable. -/
theorem sendWhatsApp_final_check_redundant (phone f : List Char)
    (h : formatStage (cleanDigits phone) = Except.ok f) :
    (f.length = 12 ∨ f.length = 13) ∧ f.take 2 = ['5','5'] ∧
    (f.drop 2).take 2 ∈ VALID_DDDS ∧ finalCheck f = Except.ok f := by
  obtain ⟨h55, hddd, hlen⟩ := formatStage_ok_shape _ _ h
  have hlen2 : f.length = 12 ∨ f.length = 13 := by
    rcases hlen with h1 | ⟨h1, _⟩
    · exact Or.inl h1
    · exact Or.inr h1
  exact ⟨hlen2, h55, hddd, finalCheck_of_shape f hlen2 h55 hddd⟩

/-- Witness for C5 at the input `"1133334444"`. -/
theorem sendWhatsApp_final_check_redundant_check :
    ((String.data "551133334444").length = 12 ∨ (String.data "551133334444").length = 13) ∧
    (String.data "551133334444").take 2 = ['5','5'] ∧
    ((String.data "551133334444").drop 2).take 2 ∈ VALID_DDDS ∧
    finalCheck (String.data "551133334444") = Except.ok (String.data "551133334444") :=
  sendWhatsApp_final_check_redundant (String.data "1133334444")
    (String.data "551133334444") rfl

/-- C6: every call of `sendWhatsApp` issues at most two send POSTs; the first
always uses the primary `textMessage` schema, and a second POST, carrying the
body in a top-level `text` field, happens exactly when the primary POST fails,
with no further attempts after it. -/
theorem sendWhatsApp_retry_once (number : List Char) (message : String)
    (post : SendPayload → Except String EvolutionResponse) :
    (sendTextAttempts number message post).1.length ≤ 2 ∧
    (sendTextAttempts number message post).1 =
      SendPayload.textMessage number message ::
        (match post (SendPayload.textMessage number message) with
         | Except.ok _ => []
         | Except.error _ => [SendPayload.plainText number message]) := by
  cases h1 : post (SendPayload.textMessage number message) with
  | ok r => simp [sendTextAttempts, h1]
  | error e =>
    cases h2 : post (SendPayload.plainText number message) with
    | ok r => simp [sendTextAttempts, h1, h2]
    | error e2 => simp [sendTextAttempts, h1, h2]

/-- C9: `validateBrazilianPhone` checks only that the numeric DDD lies in
`[11, 99]` (besides length and the mobile `9` marker) and never consults the
allow-list, so it accepts `"20987654321"` (DDD `20`), which the formatting
stage of `sendWhatsApp` rejects with a DDD error. -/
theorem validateBrazilianPhone_weaker_than_formatter :
    (∀ phone : List Char,
      validateBrazilianPhone phone = true ↔
        (10 ≤ (phone.filter Char.isDigit).length ∧ (phone.filter Char.isDigit).length ≤ 11 ∧
         11 ≤ parseDddNat ((phone.filter Char.isDigit).take 2) ∧
         parseDddNat ((phone.filter Char.isDigit).take 2) ≤ 99 ∧
         ¬((phone.filter Char.isDigit).length = 11 ∧
            ((phone.filter Char.isDigit).drop 2).take 1 ≠ ['9']))) ∧
    validateBrazilianPhone (String.data "20987654321") = true ∧
    ['2','0'] ∉ VALID_DDDS ∧
    formatStage (cleanDigits (String.data "20987654321")) =
      Except.error (FormatError.invalidDDD ['2','0']) := by
  refine ⟨?_, by decide, by decide, rfl⟩
  intro phone
  unfold validateBrazilianPhone
  split
  next h1 => exact iff_of_false (by simp) (by rintro ⟨ha, hb, _⟩; omega)
  next h1 =>
    split
    next h2 => exact iff_of_false (by simp) (by rintro ⟨_, _, hc, hd, _⟩; omega)
    next h2 =>
      split
      next h3 => exact iff_of_false (by simp) (by rintro ⟨_, _, _, _, he⟩; exact he h3)
      next h3 => exact iff_of_true rfl ⟨by omega, by omega, by omega, by omega, h3⟩

/-- C7: when the email already has a `profiles` row, the route answers
HTTP 400 with error `"Email já cadastrado no sistema"`, and the only external
effect performed is the duplicate-email select: no auth-user creation and no
other write happens, and neither password generation nor profile insertion is
reached. -/
theorem registerResident_duplicate_email (env : RegisterEnv) (pid : String)
    (h : env.existingProfile = some pid) :
    (registerResident env).1 =
      RouteResponse.mk 400 false (some "Email já cadastrado no sistema") ∧
    (registerResident env).2 = [DbEffect.selectProfileByEmail] ∧
    ∀ e ∈ (registerResident env).2, e.isWrite = false := by
  unfold registerResident
  rw [h]
  refine ⟨rfl, rfl, ?_⟩
  intro e he
  have he' : e = DbEffect.selectProfileByEmail := by simpa using he
  subst he'
  rfl

/-- Witness for C7 on a concrete duplicate-email environment. -/
theorem registerResident_duplicate_email_check :
    (registerResident envDuplicateEmail).1 =
      RouteResponse.mk 400 false (some "Email já cadastrado no sistema") ∧
    (registerResident envDuplicateEmail).2 = [DbEffect.selectProfileByEmail] ∧
    ∀ e ∈ (registerResident envDuplicateEmail).2, e.isWrite = false :=
  registerResident_duplicate_email envDuplicateEmail "profile-1" rfl

/-- C10: when the profiles insert fails after the auth user was created, the
route deletes the just-created auth user and answers HTTP 500, so no auth
user created by this flow survives without a profile row. -/
theorem registerResident_rollback_on_profile_error (env : RegisterEnv)
    (pw uid err : String)
    (h0 : env.existingProfile = none) (h1 : env.passwordGen = Except.ok pw)
    (h2 : env.authCreate = Except.ok uid) (h3 : env.profileInsert = Except.error err) :
    (registerResident env).1 =
      RouteResponse.mk 500 false (some "Erro ao criar perfil do usuário") ∧
    (registerResident env).2 =
      [DbEffect.selectProfileByEmail, DbEffect.rpcGeneratePassword, DbEffect.authCreateUser,
        DbEffect.insertProfile uid, DbEffect.authDeleteUser uid] ∧
    DbEffect.authDeleteUser uid ∈ (registerResident env).2 := by
  unfold registerResident
  rw [h0, h1, h2, h3]
  exact ⟨rfl, rfl, by simp⟩

/-- Witness for C10 on a concrete failing-insert environment. -/
theorem registerResident_rollback_on_profile_error_check :
    (registerResident envProfileInsertFails).1 =
      RouteResponse.mk 500 false (some "Erro ao criar perfil do usuário") ∧
    (registerResident envProfileInsertFails).2 =
      [DbEffect.selectProfileByEmail, DbEffect.rpcGeneratePassword, DbEffect.authCreateUser,
        DbEffect.insertProfile "user-1", DbEffect.authDeleteUser "user-1"] ∧
    DbEffect.authDeleteUser "user-1" ∈ (registerResident envProfileInsertFails).2 :=
  registerResident_rollback_on_profile_error envProfileInsertFails "Pass123" "user-1"
    "insert failed" rfl rfl rfl rfl

/-- C8 counterexample: an UPDATE that leaves the (non-null)
`notification_status` unchanged is still delivered by the filtered channel,
yet the listener neither re-queries the enriched row nor invokes any of the
registered callbacks, contradicting the claim that every delivered UPDATE is
re-queried and fanned out. -/
theorem handleNotificationChange_unchanged_status_no_fanout :
    handleNotificationChange (some sampleOldRow) sampleNewRowSameStatus
        (Except.ok (EnrichedJoin.mk (some "Maria") (some "101"))) [0]
        "2025-01-01T10:05:00Z" =
      HandleOutcome.mk false [] ∧
    sampleNewRowSameStatus.notification_status = some "pending" ∧
    ([0] : List Nat).length = 1 :=
  ⟨rfl, rfl, rfl⟩

/-- C8 amended: for every UPDATE event delivered on the filtered channel whose
old `notification_status` differs from the (non-null) new one, and whose
enrichment re-query succeeds, the listener re-queries the enriched row and
invokes every locally-registered callback exactly once with the enriched
notification data. -/
theorem handleNotificationChange_fanout (oldRec : Option VisitorLogRow)
    (newRec : VisitorLogRow) (enriched : EnrichedJoin) (callbacks : List Nat)
    (now s : String)
    (_hnew : newRec.notification_status = some s)
    (hdiff : Option.bind oldRec VisitorLogRow.notification_status ≠
      newRec.notification_status) :
    handleNotificationChange oldRec newRec (Except.ok enriched) callbacks now =
      HandleOutcome.mk true
        (callbacks.map (fun cb =>
          (cb, NotificationData.mk newRec.id newRec.visitor_id newRec.apartment_id
            newRec.building_id
            (jsOrNull (Option.bind oldRec VisitorLogRow.notification_status))
            newRec.notification_status newRec.log_time newRec.tipo_log newRec.purpose
            now enriched.visitorName enriched.apartmentNumber))) ∧
    (handleNotificationChange oldRec newRec (Except.ok enriched) callbacks now).invocations.length =
      callbacks.length := by
  constructor
  · unfold handleNotificationChange
    rw [if_neg hdiff]
  · unfold handleNotificationChange
    rw [if_neg hdiff]
    simp

/-- Witness for the amended C8 on a concrete status change with two
registered callbacks. -/
theorem handleNotificationChange_fanout_check :
    (handleNotificationChange (some sampleOldRow) sampleNewRowApproved
        (Except.ok (EnrichedJoin.mk (some "Maria") (some "101"))) [0, 1]
        "2025-01-01T10:05:00Z").invocations.length = ([0, 1] : List Nat).length :=
  (handleNotificationChange_fanout (some sampleOldRow) sampleNewRowApproved
    (EnrichedJoin.mk (some "Maria") (some "101")) [0, 1] "2025-01-01T10:05:00Z"
    "approved" rfl (by decide)).2

end PorteiroApp
